import Mathlib

/-!
Verification development for the core of the `slog` structured logging
library (`src/src/lib.rs`).  The context-chain data structure, its
iterator and the compile-time severity ceiling are translated directly
from `lib.rs`.  The severity enumerations, level parsing and the drain
combinators live in `_level.rs` / `_logger.rs` / `_drain.rs`, which are
included by `lib.rs` but are not part of the available sources; those
definitions are modelled from the specification and marked as such.
-/

namespace Slog

/-- Modelled from the spec: `_level.rs` is not among the sources.  The
severity enumeration `Critical > Error > Warning > Info > Debug > Trace`
(spec §3), without the `Off` state which exists only for `FilterLevel`. -/
inductive Level : Type where
  | Critical
  | Error
  | Warning
  | Info
  | Debug
  | Trace
deriving DecidableEq, Repr, Fintype

/-- Modelled from the spec: `_level.rs` is not among the sources.  The
filter-level enumeration: the severities plus the disabled `Off` state
(spec §3). -/
inductive FilterLevel : Type where
  | Off
  | Critical
  | Error
  | Warning
  | Info
  | Debug
  | Trace
deriving DecidableEq, Repr, Fintype

/-- Modelled from the spec: ordinal conversion for `Level` (spec §4.1).
Comparisons are by numeric rank, lower rank = more severe; ranks are
chosen so that `FilterLevel.Off` sits below every real severity. -/
def Level.as_usize : Level → Nat
  | .Critical => 1
  | .Error => 2
  | .Warning => 3
  | .Info => 4
  | .Debug => 5
  | .Trace => 6

/-- Modelled from the spec: ordinal conversion for `FilterLevel`
(spec §4.1); `Off` has the least ordinal so it excludes every record. -/
def FilterLevel.as_usize : FilterLevel → Nat
  | .Off => 0
  | .Critical => 1
  | .Error => 2
  | .Warning => 3
  | .Info => 4
  | .Debug => 5
  | .Trace => 6

/-- The set of cargo-feature flags and the build profile consulted by
`__slog_static_max_level` (`lib.rs` lines 588-623).  `debug_assertions`
is true in non-optimized (debug) builds. -/
structure BuildConfig : Type where
  debug_assertions : Bool
  release_max_level_off : Bool
  release_max_level_error : Bool
  release_max_level_warn : Bool
  release_max_level_info : Bool
  release_max_level_debug : Bool
  release_max_level_trace : Bool
  max_level_off : Bool
  max_level_error : Bool
  max_level_warn : Bool
  max_level_info : Bool
  max_level_debug : Bool
  max_level_trace : Bool
deriving DecidableEq, Repr

/-- The early-return chain over the `release_max_level_*` features inside
`__slog_static_max_level` (`lib.rs` lines 590-602); `none` models falling
through past all the early returns. -/
def staticMaxLevelReleaseOverride (c : BuildConfig) : Option FilterLevel :=
  if c.release_max_level_off then some FilterLevel.Off
  else if c.release_max_level_error then some FilterLevel.Error
  else if c.release_max_level_warn then some FilterLevel.Warning
  else if c.release_max_level_info then some FilterLevel.Info
  else if c.release_max_level_debug then some FilterLevel.Debug
  else if c.release_max_level_trace then some FilterLevel.Trace
  else none

/-- Translation of `__slog_static_max_level` (`lib.rs` lines 588-623):
in non-debug builds the `release_max_level_*` features are consulted
first (early return); otherwise the `max_level_*` features decide, with
the default `Info` in non-debug builds and `Debug` in debug builds. -/
def __slog_static_max_level (c : BuildConfig) : FilterLevel :=
  match (if ¬ c.debug_assertions then staticMaxLevelReleaseOverride c else none) with
  | some l => l
  | none =>
    if c.max_level_off then FilterLevel.Off
    else if c.max_level_error then FilterLevel.Error
    else if c.max_level_warn then FilterLevel.Warning
    else if c.max_level_info then FilterLevel.Info
    else if c.max_level_debug then FilterLevel.Debug
    else if c.max_level_trace then FilterLevel.Trace
    else if ¬ c.debug_assertions then FilterLevel.Info
    else FilterLevel.Debug

/-- A build configuration with no `max_level` feature enabled, in a
non-optimized (debug) build. -/
def defaultDebugConfig : BuildConfig :=
  ⟨true, false, false, false, false, false, false, false, false, false, false, false, false⟩

/-- A build configuration with no `max_level` feature enabled, in an
optimized (release) build. -/
def defaultReleaseConfig : BuildConfig :=
  ⟨false, false, false, false, false, false, false, false, false, false, false, false, false⟩

/-- Chain of owned key/values of a logger and its ancestors
(`OwnedKeyValueList`, `lib.rs` lines 507-510).  The struct holds a group
of values and an optional reference-counted parent; it is built through
exactly two constructors, `root` (no parent, `lib.rs` line 522) and
`new` (with a parent, `lib.rs` line 514), mirrored here.  The boxed
serializable payload of an `OwnedKeyValue` is abstracted by the type
parameter `V`; keys are static strings. -/
inductive OwnedKeyValueList (V : Type) : Type where
  | root (values : List (String × V))
  | new (values : List (String × V)) (parent : OwnedKeyValueList V)
deriving DecidableEq, Repr

/-- The `values` field accessor (`lib.rs` lines 538-540): the group owned
directly by this node. -/
def OwnedKeyValueList.values {V : Type} : OwnedKeyValueList V → List (String × V)
  | .root vs => vs
  | .new vs _ => vs

/-- The `parent` field accessor (`lib.rs` lines 530-532). -/
def OwnedKeyValueList.parent {V : Type} : OwnedKeyValueList V → Option (OwnedKeyValueList V)
  | .root _ => none
  | .new _ p => some p

/-- Iterator over the owned key/values of a chain
(`OwnedKeyValueListIterator`, `lib.rs` lines 549-552): the remaining
slice iterator of the current group together with the next node to
visit. -/
structure OwnedKeyValueListIterator (V : Type) : Type where
  next_node : Option (OwnedKeyValueList V)
  iter : List (String × V)
deriving DecidableEq, Repr

/-- Construction of the iterator from a chain node
(`OwnedKeyValueListIterator::new`, `lib.rs` lines 555-560). -/
def OwnedKeyValueListIterator.new {V : Type} (node : OwnedKeyValueList V) :
    OwnedKeyValueListIterator V :=
  ⟨node.parent, node.values⟩

/-- The `iter` method of the chain (`lib.rs` lines 543-545). -/
def OwnedKeyValueList.iter {V : Type} (c : OwnedKeyValueList V) :
    OwnedKeyValueListIterator V :=
  OwnedKeyValueListIterator.new c

/-- Depth of a chain: number of ancestors. -/
def OwnedKeyValueList.depth {V : Type} : OwnedKeyValueList V → Nat
  | .root _ => 0
  | .new _ p => p.depth + 1

/-- Depth of an optional chain node, used as the termination measure of
the iterator. -/
def optDepth {V : Type} : Option (OwnedKeyValueList V) → Nat
  | none => 0
  | some n => n.depth + 1

/-- Translation of `Iterator::next` for `OwnedKeyValueListIterator`
(`lib.rs` lines 563-581): yield the next element of the current group; on
exhaustion move to the parent node (the source's `loop` becomes the
recursive call) and return `none` only once the root's group is
exhausted. -/
def OwnedKeyValueListIterator.next {V : Type} :
    OwnedKeyValueListIterator V → Option ((String × V) × OwnedKeyValueListIterator V)
  | ⟨nn, x :: rest⟩ => some (x, ⟨nn, rest⟩)
  | ⟨none, []⟩ => none
  | ⟨some node, []⟩ => OwnedKeyValueListIterator.next ⟨node.parent, node.values⟩
termination_by it => optDepth it.next_node
decreasing_by
  cases node with
  | root vs => simp [OwnedKeyValueList.parent, optDepth, OwnedKeyValueList.depth]
  | new vs p => simp [OwnedKeyValueList.parent, optDepth, OwnedKeyValueList.depth]

/-- Full traversal of the iterator: the elements yielded by repeatedly
calling `next`.  Defined by the same case analysis as `next`; the lemma
`toList_next_unfold` below proves the correspondence. -/
def OwnedKeyValueListIterator.toList {V : Type} :
    OwnedKeyValueListIterator V → List (String × V)
  | ⟨nn, x :: rest⟩ => x :: OwnedKeyValueListIterator.toList ⟨nn, rest⟩
  | ⟨none, []⟩ => []
  | ⟨some node, []⟩ => OwnedKeyValueListIterator.toList ⟨node.parent, node.values⟩
termination_by it => (optDepth it.next_node, it.iter.length)
decreasing_by
  · exact Prod.Lex.right _ (Nat.lt_succ_self _)
  · apply Prod.Lex.left
    cases node with
    | root vs => simp [OwnedKeyValueList.parent, optDepth, OwnedKeyValueList.depth]
    | new vs p => simp [OwnedKeyValueList.parent, optDepth, OwnedKeyValueList.depth]

/-- Concatenation of the groups of a chain, child first
(specification-level description of the traversal order, spec §4.3). -/
def chainGroupsFlatten {V : Type} : OwnedKeyValueList V → List (String × V)
  | .root vs => vs
  | .new vs p => vs ++ chainGroupsFlatten p

/-- Sum of the group lengths along a chain. -/
def chainLengthSum {V : Type} : OwnedKeyValueList V → Nat
  | .root vs => vs.length
  | .new vs p => vs.length + chainLengthSum p

/-- Concatenation of the groups of the ancestors reachable through an
optional parent pointer. -/
def flattenParent {V : Type} : Option (OwnedKeyValueList V) → List (String × V)
  | none => []
  | some n => chainGroupsFlatten n

theorem toList_next_unfold {V : Type} (it : OwnedKeyValueListIterator V) :
    it.toList = match it.next with
      | none => []
      | some (x, it2) => x :: it2.toList := by
  induction it using OwnedKeyValueListIterator.toList.induct with
  | case1 nn x rest =>
    simp [OwnedKeyValueListIterator.toList, OwnedKeyValueListIterator.next]
  | case2 =>
    simp [OwnedKeyValueListIterator.toList, OwnedKeyValueListIterator.next]
  | case3 node ih =>
    rw [OwnedKeyValueListIterator.toList, OwnedKeyValueListIterator.next]
    exact ih

theorem toList_eq_append {V : Type} (it : OwnedKeyValueListIterator V) :
    it.toList = it.iter ++ flattenParent it.next_node := by
  induction it using OwnedKeyValueListIterator.toList.induct with
  | case1 nn x rest ih =>
    simp [OwnedKeyValueListIterator.toList]
    exact ih
  | case2 =>
    simp [OwnedKeyValueListIterator.toList, flattenParent]
  | case3 node ih =>
    rw [OwnedKeyValueListIterator.toList]
    rw [ih]
    cases node with
    | root vs => simp [OwnedKeyValueList.parent, OwnedKeyValueList.values,
        flattenParent, chainGroupsFlatten]
    | new vs p => simp [OwnedKeyValueList.parent, OwnedKeyValueList.values,
        flattenParent, chainGroupsFlatten]

theorem iter_toList_eq_flatten {V : Type} (c : OwnedKeyValueList V) :
    c.iter.toList = chainGroupsFlatten c := by
  rw [OwnedKeyValueList.iter, OwnedKeyValueListIterator.new, toList_eq_append]
  cases c with
  | root vs => simp [OwnedKeyValueList.parent, OwnedKeyValueList.values,
      flattenParent, chainGroupsFlatten]
  | new vs p => simp [OwnedKeyValueList.parent, OwnedKeyValueList.values,
      flattenParent, chainGroupsFlatten]

theorem flatten_length_eq_sum {V : Type} (c : OwnedKeyValueList V) :
    (chainGroupsFlatten c).length = chainLengthSum c := by
  induction c with
  | root vs => simp [chainGroupsFlatten, chainLengthSum]
  | new vs p ih => simp [chainGroupsFlatten, chainLengthSum, ih]

/-- First level whose feature flag is enabled in a consultation list. -/
def firstEnabled : List (Bool × FilterLevel) → Option FilterLevel
  | [] => none
  | (b, l) :: rest => if b then some l else firstEnabled rest

/-- The `release_max_level_*` options in the consultation order the claim
describes: Off, Error, Warning, Info, Debug, Trace. -/
def releaseOptionsOrdered (c : BuildConfig) : List (Bool × FilterLevel) :=
  [(c.release_max_level_off, FilterLevel.Off),
   (c.release_max_level_error, FilterLevel.Error),
   (c.release_max_level_warn, FilterLevel.Warning),
   (c.release_max_level_info, FilterLevel.Info),
   (c.release_max_level_debug, FilterLevel.Debug),
   (c.release_max_level_trace, FilterLevel.Trace)]

/-- The base `max_level_*` options in the same Off-first consultation
order. -/
def baseOptionsOrdered (c : BuildConfig) : List (Bool × FilterLevel) :=
  [(c.max_level_off, FilterLevel.Off),
   (c.max_level_error, FilterLevel.Error),
   (c.max_level_warn, FilterLevel.Warning),
   (c.max_level_info, FilterLevel.Info),
   (c.max_level_debug, FilterLevel.Debug),
   (c.max_level_trace, FilterLevel.Trace)]

/-- Resolution rule as the claim words it: in non-debug builds the first
enabled release option wins; only if none is enabled (or always, in debug
builds) are the base options consulted in the same order, falling back to
the build-profile default. -/
def claimedStaticResolve (c : BuildConfig) : FilterLevel :=
  let base :=
    match firstEnabled (baseOptionsOrdered c) with
    | some l => l
    | none => if ¬ c.debug_assertions then FilterLevel.Info else FilterLevel.Debug
  if ¬ c.debug_assertions then
    match firstEnabled (releaseOptionsOrdered c) with
    | some l => l
    | none => base
  else base

/-- Static part of a record, built once per call site by the `log!`
macro (`RecordStatic`, `lib.rs` lines 220-228): the `function` field is
always the empty string and `target` equals `module`. -/
structure RecordStatic : Type where
  level : Level
  file : String
  line : Nat
  column : Nat
  function : String
  module : String
  target : String
deriving DecidableEq, Repr

/-- Modelled from the spec: `Record::new` lives in `_logger.rs`, which is
absent from the sources; per spec §3 a record holds a level, static
call-site metadata, the formatted message and the ad-hoc borrowed
key/values (payloads abstracted by `V`). -/
structure Record (V : Type) : Type where
  rstatic : RecordStatic
  msg : String
  values : List (String × V)
deriving DecidableEq, Repr

/-- The level of a record comes from its static part. -/
def Record.level {V : Type} (r : Record V) : Level :=
  r.rstatic.level

/-- One observable step of an expansion of the `log!` macro: evaluation
of one lazily-computed key/value argument, construction of the `Record`,
or the dispatch call `$l.log(...)`. -/
inductive LogStep (V : Type) : Type where
  | evalArg (k : String) (v : V)
  | buildRecord (r : Record V)
  | dispatch (r : Record V)
deriving DecidableEq, Repr

/-- Recognizer for dispatch steps. -/
def LogStep.isDispatch {V : Type} : LogStep V → Bool
  | .dispatch _ => true
  | _ => false

/-- Recognizer for record-construction steps. -/
def LogStep.isBuildRecord {V : Type} : LogStep V → Bool
  | .buildRecord _ => true
  | _ => false

/-- Recognizer for argument-evaluation steps. -/
def LogStep.isEvalArg {V : Type} : LogStep V → Bool
  | .evalArg _ _ => true
  | _ => false

/-- Embedding of the `log!` macro expansion (`lib.rs` lines 216-231):
the whole body — evaluation of the key/value arguments, construction of
the `RecordStatic` (with `function` empty and `target` equal to the
module path) and `Record`, and the single `$l.log(...)` dispatch — sits
under the guard `$lvl.as_usize() <= __slog_static_max_level().as_usize()`;
when the guard fails nothing at all is evaluated.  The returned trace
lists the observable steps in order. -/
def logMacroExpansion {V : Type} (lvl : Level) (cfg : BuildConfig)
    (file : String) (line column : Nat) (module : String)
    (msg : String) (kvs : List (String × V)) : List (LogStep V) :=
  if lvl.as_usize ≤ (__slog_static_max_level cfg).as_usize then
    let rs : RecordStatic := ⟨lvl, file, line, column, "", module, module⟩
    (kvs.map fun kv => LogStep.evalArg kv.1 kv.2) ++
      [LogStep.buildRecord ⟨rs, msg, kvs⟩, LogStep.dispatch ⟨rs, msg, kvs⟩]
  else []

/-- Modelled from the spec: the severities in the order the spec lists
them, most severe first (spec §3: `Critical > Error > Warning > Info >
Debug > Trace`). -/
def severityOrder : List Level :=
  [Level.Critical, Level.Error, Level.Warning, Level.Info, Level.Debug, Level.Trace]

/-- Severity `a` is strictly more severe than `b`: it appears strictly
earlier in the spec's severity order. -/
def strictlyMoreSevere (a b : Level) : Prop :=
  severityOrder.indexOf a < severityOrder.indexOf b

instance (a b : Level) : Decidable (strictlyMoreSevere a b) :=
  inferInstanceAs (Decidable (severityOrder.indexOf a < severityOrder.indexOf b))

/-- Modelled from the spec: a record's level is loggable against a
threshold when its ordinal is at most the threshold's ordinal (spec
§4.1); this is exactly the guard of the `log!` macro (`lib.rs` line
218). -/
def Level.is_loggable (l : Level) (threshold : FilterLevel) : Bool :=
  l.as_usize ≤ threshold.as_usize

/-- ASCII lowering of a single character, used to make level parsing
case-insensitive. -/
def asciiLowerChar : Char → Char
  | 'A' => 'a' | 'B' => 'b' | 'C' => 'c' | 'D' => 'd' | 'E' => 'e' | 'F' => 'f'
  | 'G' => 'g' | 'H' => 'h' | 'I' => 'i' | 'J' => 'j' | 'K' => 'k' | 'L' => 'l'
  | 'M' => 'm' | 'N' => 'n' | 'O' => 'o' | 'P' => 'p' | 'Q' => 'q' | 'R' => 'r'
  | 'S' => 's' | 'T' => 't' | 'U' => 'u' | 'V' => 'v' | 'W' => 'w' | 'X' => 'x'
  | 'Y' => 'y' | 'Z' => 'z' | c => c

/-- ASCII lowering of a string. -/
def asciiLower (s : String) : String :=
  String.mk (s.data.map asciiLowerChar)

/-- ASCII raising of a single character. -/
def asciiUpperChar : Char → Char
  | 'a' => 'A' | 'b' => 'B' | 'c' => 'C' | 'd' => 'D' | 'e' => 'E' | 'f' => 'F'
  | 'g' => 'G' | 'h' => 'H' | 'i' => 'I' | 'j' => 'J' | 'k' => 'K' | 'l' => 'L'
  | 'm' => 'M' | 'n' => 'N' | 'o' => 'O' | 'p' => 'P' | 'q' => 'Q' | 'r' => 'R'
  | 's' => 'S' | 't' => 'T' | 'u' => 'U' | 'v' => 'V' | 'w' => 'W' | 'x' => 'X'
  | 'y' => 'Y' | 'z' => 'Z' | c => c

/-- ASCII raising of a string. -/
def asciiUpper (s : String) : String :=
  String.mk (s.data.map asciiUpperChar)

/-- Modelled from the spec: human-readable name of a severity
(spec §4.1). -/
def Level.name : Level → String
  | .Critical => "critical"
  | .Error => "error"
  | .Warning => "warning"
  | .Info => "info"
  | .Debug => "debug"
  | .Trace => "trace"

/-- Modelled from the spec: human-readable name of a filter level; only
`FilterLevel` has the extra name `off` (spec §4.1). -/
def FilterLevel.name : FilterLevel → String
  | .Off => "off"
  | .Critical => "critical"
  | .Error => "error"
  | .Warning => "warning"
  | .Info => "info"
  | .Debug => "debug"
  | .Trace => "trace"

/-- Modelled from the spec: the level-parsing failure carries no
diagnostic payload beyond being unrecognized (spec §7). -/
inductive InvalidLevelName : Type where
  | mk
deriving DecidableEq, Repr

deriving instance DecidableEq for Except

/-- Modelled from the spec: case-insensitive parsing of a severity name,
accepting the full names and the documented single-letter abbreviations
(spec §4.1); every other string fails with `InvalidLevelName`. -/
def Level.from_str (s : String) : Except InvalidLevelName Level :=
  let t := asciiLower s
  if t = "critical" ∨ t = "c" then Except.ok Level.Critical
  else if t = "error" ∨ t = "e" then Except.ok Level.Error
  else if t = "warning" ∨ t = "w" then Except.ok Level.Warning
  else if t = "info" ∨ t = "i" then Except.ok Level.Info
  else if t = "debug" ∨ t = "d" then Except.ok Level.Debug
  else if t = "trace" ∨ t = "t" then Except.ok Level.Trace
  else Except.error InvalidLevelName.mk

/-- Modelled from the spec: case-insensitive parsing of a filter level,
additionally accepting `off` and its abbreviation `o` (spec §4.1). -/
def FilterLevel.from_str (s : String) : Except InvalidLevelName FilterLevel :=
  let t := asciiLower s
  if t = "off" ∨ t = "o" then Except.ok FilterLevel.Off
  else if t = "critical" ∨ t = "c" then Except.ok FilterLevel.Critical
  else if t = "error" ∨ t = "e" then Except.ok FilterLevel.Error
  else if t = "warning" ∨ t = "w" then Except.ok FilterLevel.Warning
  else if t = "info" ∨ t = "i" then Except.ok FilterLevel.Info
  else if t = "debug" ∨ t = "d" then Except.ok FilterLevel.Debug
  else if t = "trace" ∨ t = "t" then Except.ok FilterLevel.Trace
  else Except.error InvalidLevelName.mk

/-- The strings accepted by `Level.from_str` (lower-cased). -/
def levelAcceptedStrings : List String :=
  ["critical", "c", "error", "e", "warning", "w", "info", "i", "debug", "d", "trace", "t"]

/-- The strings accepted by `FilterLevel.from_str` (lower-cased). -/
def filterLevelAcceptedStrings : List String :=
  "off" :: "o" :: levelAcceptedStrings

/-- Modelled from the spec: `_drain.rs` is absent from the sources.  A
drain consumes a record and returns success or a sink-defined failure
(spec §3, §4.6); to reason about which inner sinks were invoked, a drain
here also emits the ordered list of invocation tags of the inner sinks
it called. -/
def Drain (V E : Type) : Type :=
  Record V → List Nat × Except E Unit

/-- An inner drain that tags each of its invocations with `tag` and
returns whatever outcome `f` decides. -/
def taggedDrain {V E : Type} (tag : Nat) (f : Record V → Except E Unit) : Drain V E :=
  fun r => ([tag], f r)

/-- Modelled from the spec: the Duplicate/fan-out drain (spec §4.6)
forwards the record to both inner drains left-to-right without
short-circuiting, succeeds iff both succeed, and otherwise returns the
first encountered failure. -/
def duplicateLog {V E : Type} (d1 d2 : Drain V E) : Drain V E :=
  fun r =>
    let o1 := d1 r
    let o2 := d2 r
    (o1.1 ++ o2.1,
      match o1.2, o2.2 with
      | Except.ok _, Except.ok _ => Except.ok ()
      | Except.error e, _ => Except.error e
      | Except.ok _, Except.error e => Except.error e)

/-- Modelled from the spec: the level-filter drain (spec §4.6) forwards
to the inner drain only if the record's level passes the threshold
(level ordinal at most threshold ordinal, spec §4.1); otherwise it
succeeds trivially without invoking the inner drain. -/
def levelFilterLog {V E : Type} (threshold : Level) (d : Drain V E) : Drain V E :=
  fun r =>
    if (Record.level r).as_usize ≤ threshold.as_usize then d r
    else ([], Except.ok ())

/-- A concrete record used to instantiate drain theorems. -/
def sampleRecord : Record Nat :=
  ⟨⟨Level.Info, "file", 1, 1, "", "mod", "mod"⟩, "msg", []⟩

/-- An always-succeeding inner sink on concrete types. -/
def alwaysOkSink : Record Nat → Except Nat Unit :=
  fun _ => Except.ok ()

/-- An always-failing inner sink on concrete types. -/
def alwaysFailSink : Record Nat → Except Nat Unit :=
  fun _ => Except.error 7

/-- C1: iterating a context chain yields exactly the entries of this
node's own group first, then the parent's, and so on to the root, every
entry exactly once in within-group insertion order; in particular a chain
whose root group holds the same key twice plus a child adding it a third
time yields exactly those three entries, child first. -/
theorem c1_iteration_order :
    (∀ (V : Type) (c : OwnedKeyValueList V), c.iter.toList = chainGroupsFlatten c) ∧
    (OwnedKeyValueList.new [("k", (3 : Nat))]
        (OwnedKeyValueList.root [("k", 1), ("k", 2)])).iter.toList
      = [("k", 3), ("k", 1), ("k", 2)] := by
  refine ⟨fun V c => iter_toList_eq_flatten c, ?_⟩
  rw [iter_toList_eq_flatten]
  rfl

/-- C2 counterexample: with no `max_level` feature enabled, in a debug
build the static ceiling is `Debug`, which does not admit `Trace` — the
claim that the default admits every severity in non-optimized builds is
false. -/
theorem c2_default_counterexample :
    ¬ (Level.Trace.as_usize ≤ (__slog_static_max_level defaultDebugConfig).as_usize) := by
  decide

/-- C2 (amended): with no `max_level` / `release_max_level` option
enabled, the default ceiling is `Debug` in non-optimized builds —
admitting every severity except `Trace` — and `Info` in optimized builds,
admitting exactly Info-and-above. -/
theorem c2_default_ceiling :
    __slog_static_max_level defaultDebugConfig = FilterLevel.Debug ∧
    __slog_static_max_level defaultReleaseConfig = FilterLevel.Info ∧
    (∀ l : Level,
      (l.as_usize ≤ (__slog_static_max_level defaultDebugConfig).as_usize ↔
        l ≠ Level.Trace)) ∧
    (∀ l : Level,
      (l.as_usize ≤ (__slog_static_max_level defaultReleaseConfig).as_usize ↔
        (l = Level.Critical ∨ l = Level.Error ∨ l = Level.Warning ∨ l = Level.Info))) := by
  decide

/-- C3: building a child chain with `new` never disturbs the parent: the
child's own group is exactly `groups`, its parent link is exactly `P`
(the chain is persistent, so `P` itself is unchanged), and iterating the
child yields every entry of `groups` before the whole of `P`'s own
iteration. -/
theorem c3_new_persistent (V : Type) (groups : List (String × V))
    (P : OwnedKeyValueList V) :
    (OwnedKeyValueList.new groups P).values = groups ∧
    (OwnedKeyValueList.new groups P).parent = some P ∧
    (OwnedKeyValueList.new groups P).iter.toList = groups ++ P.iter.toList := by
  refine ⟨rfl, rfl, ?_⟩
  rw [iter_toList_eq_flatten, iter_toList_eq_flatten]
  rfl

/-- C9: `__slog_static_max_level` resolves simultaneously enabled feature
flags exactly as claimed: in non-debug builds the first enabled
`release_max_level_*` option in Off-first order wins; only if none is
enabled (or always, in debug builds) is the first enabled base
`max_level_*` option consulted in the same order. -/
theorem c9_feature_precedence (c : BuildConfig) :
    __slog_static_max_level c = claimedStaticResolve c := by
  obtain ⟨d, r1, r2, r3, r4, r5, r6, b1, b2, b3, b4, b5, b6⟩ := c
  cases d <;> cases r1 <;> cases r2 <;> cases r3 <;> cases r4 <;> cases r5 <;> cases r6 <;>
    cases b1 <;> cases b2 <;> cases b3 <;> cases b4 <;> cases b5 <;> cases b6 <;> rfl

/-- C10: traversal of any finite chain terminates with the root: `next`
returns `none` exactly when no element remains, and the total number of
items yielded by a full traversal equals the sum of the group lengths
along the chain (so a chain of empty groups yields nothing). -/
theorem c10_traversal_total (V : Type) :
    (∀ c : OwnedKeyValueList V, c.iter.toList.length = chainLengthSum c) ∧
    (∀ it : OwnedKeyValueListIterator V, it.next = none ↔ it.toList = []) := by
  constructor
  · intro c
    rw [iter_toList_eq_flatten, flatten_length_eq_sum]
  · intro it
    rw [toList_next_unfold]
    cases h : it.next with
    | none => simp
    | some p => simp

/-- C4: a `log!` call whose level ordinal exceeds the static ceiling's
ordinal produces an empty trace — no argument evaluation, no `Record`
construction, no dispatch; a call at or above the ceiling evaluates each
lazily-computed argument, constructs exactly one `Record` and dispatches
it exactly once. -/
theorem c4_static_elimination {V : Type} (lvl : Level) (cfg : BuildConfig)
    (file : String) (line column : Nat) (module msg : String)
    (kvs : List (String × V)) :
    ((__slog_static_max_level cfg).as_usize < lvl.as_usize →
      logMacroExpansion lvl cfg file line column module msg kvs = []) ∧
    (lvl.as_usize ≤ (__slog_static_max_level cfg).as_usize →
      ((logMacroExpansion lvl cfg file line column module msg kvs).countP
          LogStep.isDispatch = 1 ∧
        (logMacroExpansion lvl cfg file line column module msg kvs).countP
          LogStep.isBuildRecord = 1 ∧
        (logMacroExpansion lvl cfg file line column module msg kvs).countP
          LogStep.isEvalArg = kvs.length)) := by
  constructor
  · intro h
    have hn : ¬ lvl.as_usize ≤ (__slog_static_max_level cfg).as_usize :=
      Nat.not_le_of_lt h
    simp [logMacroExpansion, hn]
  · intro h
    simp [logMacroExpansion, h, List.countP_append, List.countP_map,
      Function.comp, LogStep.isDispatch, LogStep.isBuildRecord, LogStep.isEvalArg,
      List.countP_cons, List.countP_nil]

/-- C4 witness: a trace-level call under the default release ceiling
(`Info`) leaves no trace at all, and an info-level call under the same
ceiling dispatches exactly once. -/
theorem c4_static_elimination_witness :
    logMacroExpansion Level.Trace defaultReleaseConfig "f" 1 1 "m" "msg"
        [("k", (7 : Nat))] = [] ∧
    (logMacroExpansion Level.Info defaultReleaseConfig "f" 1 1 "m" "msg"
        ([] : List (String × Nat))).countP LogStep.isDispatch = 1 :=
  ⟨(c4_static_elimination Level.Trace defaultReleaseConfig "f" 1 1 "m" "msg"
      [("k", (7 : Nat))]).1 (by decide),
   ((c4_static_elimination Level.Info defaultReleaseConfig "f" 1 1 "m" "msg"
      ([] : List (String × Nat))).2 (by decide)).1⟩

/-- C5: the severity ordinals form the fixed total order the spec lists
(lower ordinal means strictly more severe), loggability against a
threshold is exactly the ordinal comparison used by the `log!` guard, and
`Off`'s ordinal sits below every real severity's ordinal so an `Off`
threshold excludes every record. -/
theorem c5_ordinal_order :
    (∀ a b : Level, a.as_usize < b.as_usize ↔ strictlyMoreSevere a b) ∧
    (∀ l : Level, (Level.is_loggable l FilterLevel.Off) = false) ∧
    (∀ l : Level, FilterLevel.Off.as_usize < l.as_usize) ∧
    (∀ (l : Level) (t : FilterLevel),
      (Level.is_loggable l t) = true ↔ l.as_usize ≤ t.as_usize) := by
  refine ⟨?_, ?_, ?_, ?_⟩ <;> decide

/-- C6: parsing round-trips every named severity and filter level, is
case-insensitive (upper-cased names also parse) and accepts the
documented single-letter abbreviations, while every string outside the
accepted set fails with the payload-free `InvalidLevelName` error. -/
theorem c6_parse_round_trip :
    (∀ l : Level, Level.from_str (Level.name l) = Except.ok l) ∧
    (∀ f : FilterLevel, FilterLevel.from_str (FilterLevel.name f) = Except.ok f) ∧
    (∀ l : Level, Level.from_str (asciiUpper (Level.name l)) = Except.ok l) ∧
    (Level.from_str "C" = Except.ok Level.Critical ∧
      Level.from_str "E" = Except.ok Level.Error ∧
      Level.from_str "W" = Except.ok Level.Warning ∧
      Level.from_str "I" = Except.ok Level.Info ∧
      Level.from_str "D" = Except.ok Level.Debug ∧
      Level.from_str "T" = Except.ok Level.Trace ∧
      FilterLevel.from_str "O" = Except.ok FilterLevel.Off ∧
      FilterLevel.from_str "off" = Except.ok FilterLevel.Off) ∧
    (∀ s : String, asciiLower s ∉ levelAcceptedStrings →
      Level.from_str s = Except.error InvalidLevelName.mk) ∧
    (∀ s : String, asciiLower s ∉ filterLevelAcceptedStrings →
      FilterLevel.from_str s = Except.error InvalidLevelName.mk) := by
  refine ⟨by decide, by decide, by decide, by decide, ?_, ?_⟩
  · intro s hs
    simp only [levelAcceptedStrings, List.mem_cons, List.not_mem_nil, or_false,
      not_or] at hs
    obtain ⟨h1, h2, h3, h4, h5, h6, h7, h8, h9, h10, h11, h12⟩ := hs
    simp [Level.from_str, h1, h2, h3, h4, h5, h6, h7, h8, h9, h10, h11, h12]
  · intro s hs
    simp only [filterLevelAcceptedStrings, levelAcceptedStrings, List.mem_cons,
      List.not_mem_nil, or_false, not_or] at hs
    obtain ⟨h0, h00, h1, h2, h3, h4, h5, h6, h7, h8, h9, h10, h11, h12⟩ := hs
    simp [FilterLevel.from_str, h0, h00, h1, h2, h3, h4, h5, h6, h7, h8, h9,
      h10, h11, h12]

/-- C6 witness: the unrecognized strings `verbose` and `everything` fail
with the payload-free error. -/
theorem c6_parse_round_trip_witness :
    Level.from_str "verbose" = Except.error InvalidLevelName.mk ∧
    FilterLevel.from_str "everything" = Except.error InvalidLevelName.mk :=
  ⟨c6_parse_round_trip.2.2.2.2.1 "verbose" (by decide),
   c6_parse_round_trip.2.2.2.2.2 "everything" (by decide)⟩

/-- C7: the Duplicate/fan-out drain invokes both inner drains exactly
once each, left-to-right, on every dispatch; it succeeds iff both inner
calls succeed, a failure of the left drain is returned as-is, and if only
the right drain fails its failure is returned. -/
theorem c7_fanout_both_invoked {V E : Type} (f1 f2 : Record V → Except E Unit)
    (r : Record V) :
    (duplicateLog (taggedDrain 1 f1) (taggedDrain 2 f2) r).1 = [1, 2] ∧
    ((duplicateLog (taggedDrain 1 f1) (taggedDrain 2 f2) r).2 = Except.ok () ↔
      (f1 r = Except.ok () ∧ f2 r = Except.ok ())) ∧
    (∀ e : E, f1 r = Except.error e →
      (duplicateLog (taggedDrain 1 f1) (taggedDrain 2 f2) r).2 = Except.error e) ∧
    (∀ e : E, f1 r = Except.ok () → f2 r = Except.error e →
      (duplicateLog (taggedDrain 1 f1) (taggedDrain 2 f2) r).2 = Except.error e) := by
  cases h1 : f1 r <;> cases h2 : f2 r <;>
    simp [duplicateLog, taggedDrain, h1, h2]

/-- C7 witness: wrapping one always-failing and one always-succeeding
drain, the fan-out reports the failure, and its invocation trace shows
both inner drains called exactly once, left-to-right. -/
theorem c7_fanout_both_invoked_witness :
    (duplicateLog (taggedDrain 1 alwaysFailSink)
      (taggedDrain 2 alwaysOkSink) sampleRecord).2 = Except.error 7 :=
  (c7_fanout_both_invoked alwaysFailSink alwaysOkSink sampleRecord).2.2.1 7 rfl

/-- C8: the level-filter drain forwards to the inner drain — invoking it
exactly once — iff the record's level passes the threshold; otherwise it
returns success with the inner drain never invoked. -/
theorem c8_filter_suppresses {V E : Type} (threshold : Level)
    (f : Record V → Except E Unit) (r : Record V) :
    ((Record.level r).as_usize ≤ threshold.as_usize →
      levelFilterLog threshold (taggedDrain 1 f) r = ([1], f r)) ∧
    (¬ (Record.level r).as_usize ≤ threshold.as_usize →
      levelFilterLog threshold (taggedDrain 1 f) r = ([], Except.ok ())) := by
  constructor <;> intro h <;> simp [levelFilterLog, taggedDrain, h]

/-- C8 witness: an info-level record passes an `Info` threshold and
reaches the inner drain once; it does not pass an `Error` threshold and
the inner drain is never invoked. -/
theorem c8_filter_suppresses_witness :
    levelFilterLog Level.Info (taggedDrain 1 alwaysOkSink) sampleRecord
        = ([1], Except.ok ()) ∧
    levelFilterLog Level.Error (taggedDrain 1 alwaysOkSink) sampleRecord
        = ([], Except.ok ()) :=
  ⟨(c8_filter_suppresses Level.Info alwaysOkSink sampleRecord).1 (by decide),
   (c8_filter_suppresses Level.Error alwaysOkSink sampleRecord).2 (by decide)⟩

end Slog
